import Mathlib

/-!
Verification of the zero-or-one-element set type Optional from
src/libinterval/ncollections/optional.rs of the intervallum library.

The Rust struct Optional<T> wraps an Option<T>.  Trait methods that the
wrapper delegates to the contained value (Bounded, Disjoint, Contains,
Subset, Overlap) are modelled by passing the delegate operation of T as
an explicit function argument.  Rust clone is the identity on pure Lean
values.  A Rust panic (a failed debug assertion or an unwrap of None) is
modelled by the result none of an Option-valued function.
-/

/-- The struct Optional of optional.rs: a set holding zero or one value
of type T.  Derived equality compares the underlying options, exactly as
the derived PartialEq of the Rust struct. -/
structure Optional (T : Type) where
  value : Option T
deriving DecidableEq

/-- Constructor wrap of optional.rs. -/
def Optional.wrap {T : Type} (value : Option T) : Optional T :=
  Optional.mk value

/-- The size method of the Cardinality impl: is_some as usize. -/
def Optional.size {T : Type} (a : Optional T) : Nat :=
  if a.value.isSome then 1 else 0

/-- The derived predicate is_empty of the Cardinality protocol:
size() == 0. -/
def Optional.is_empty {T : Type} (a : Optional T) : Bool :=
  a.size == 0

/-- The Singleton impl: singleton(value) = wrap(Some(value)). -/
def Optional.singleton {T : Type} (v : T) : Optional T :=
  Optional.wrap (some v)

/-- The Empty impl: empty() = wrap(None). -/
def Optional.empty {T : Type} : Optional T :=
  Optional.wrap none

/-- The lower method of the Bounded impl, as built in a debug build:
debug_assert!(!is_empty()) followed by as_ref().unwrap().lower().  The
delegate tl is the lower method of T.  The result none models the panic
(failed assertion) on an empty set. -/
def Optional.lower {T B : Type} (tl : T → B) (a : Optional T) : Option B :=
  if a.is_empty then none
  else
    match a.value with
    | some x => some (tl x)
    | none => none

/-- The upper method of the Bounded impl, as built in a debug build,
with tu the upper method of T. -/
def Optional.upper {T B : Type} (tu : T → B) (a : Optional T) : Option B :=
  if a.is_empty then none
  else
    match a.value with
    | some x => some (tu x)
    | none => none

/-- The lower method as built with debug assertions elided (release
build): only as_ref().unwrap().lower() remains, and the unwrap of None
panics (modelled by none) on an empty set. -/
def Optional.lower_release {T B : Type} (tl : T → B) (a : Optional T) : Option B :=
  match a.value with
  | some x => some (tl x)
  | none => none

/-- The upper method as built with debug assertions elided. -/
def Optional.upper_release {T B : Type} (tu : T → B) (a : Optional T) : Option B :=
  match a.value with
  | some x => some (tu x)
  | none => none

/-- The Intersection impl for Optional<T>, T: PartialEq + Clone:
empty when either operand is empty or the operands are unequal as whole
values, otherwise a clone of self. -/
def Optional.intersection {T : Type} [DecidableEq T] (a b : Optional T) : Optional T :=
  if a.is_empty || b.is_empty || (a != b) then Optional.empty
  else a

/-- The Difference impl for Optional<T>, T: PartialEq + Clone:
empty when self is empty or self equals other, otherwise a clone of
self. -/
def Optional.difference {T : Type} [DecidableEq T] (a b : Optional T) : Optional T :=
  if a.is_empty || (a == b) then Optional.empty
  else a

/-- The Disjoint impl: is_empty || other.is_empty || delegation to the
contained values.  d is the is_disjoint method of T on U.  The wildcard
branch of the match is unreachable: the two short-circuit disjuncts are
false there, so both options hold a value. -/
def Optional.is_disjoint {T U : Type} (d : T → U → Bool) (a : Optional T) (b : Optional U) : Bool :=
  a.is_empty || b.is_empty ||
    (match a.value, b.value with
     | some x, some y => d x y
     | _, _ => true)

/-- The Contains impl: as_ref().map_or(false, |x| x.contains(value)),
with c the contains method of T. -/
def Optional.contains {T U : Type} (c : T → U → Bool) (a : Optional T) (v : U) : Bool :=
  match a.value with
  | some x => c x v
  | none => false

/-- The Subset impl: empty is a subset of anything, nothing non-empty is
a subset of empty, and two non-empty sets delegate to the contained
values.  s is the is_subset method of T on U. -/
def Optional.is_subset {T U : Type} (s : T → U → Bool) (a : Optional T) (b : Optional U) : Bool :=
  if a.is_empty then true
  else if b.is_empty then false
  else
    match a.value, b.value with
    | some x, some y => s x y
    | _, _ => false

/-- The ProperSubset impl: is_subset(other) && self != other, comparing
the whole sets with the derived equality. -/
def Optional.is_proper_subset {T : Type} [DecidableEq T] (s : T → T → Bool) (a b : Optional T) : Bool :=
  Optional.is_subset s a b && (a != b)

/-- The Overlap impl: false when either side is empty, otherwise
delegation to the contained values.  ov is the overlap method of T. -/
def Optional.overlap {T : Type} (ov : T → T → Bool) (a b : Optional T) : Bool :=
  if a.is_empty || b.is_empty then false
  else
    match a.value, b.value with
    | some x, some y => ov x y
    | _, _ => false

/-- The free helper shrink_if of optional.rs: keep the contained value
(cloned, as a fresh singleton) when cond accepts it against the bound,
otherwise empty; an empty input maps to empty. -/
def shrink_if {T : Type} (a : Optional T) (bound : T) (cond : T → T → Bool) : Optional T :=
  match a.value with
  | some x => if cond x bound then Optional.singleton x else Optional.empty
  | none => Optional.empty

/-- The ShrinkLeft impl: shrink_if with the test x >= lb. -/
def Optional.shrink_left {T : Type} [LinearOrder T] (a : Optional T) (lb : T) : Optional T :=
  shrink_if a lb (fun x lb => decide (lb ≤ x))

/-- The ShrinkRight impl: shrink_if with the test x <= ub. -/
def Optional.shrink_right {T : Type} [LinearOrder T] (a : Optional T) (ub : T) : Optional T :=
  shrink_if a ub (fun x ub => decide (x ≤ ub))

/-- The StrictShrinkLeft impl: shrink_if with the test x > lb. -/
def Optional.strict_shrink_left {T : Type} [LinearOrder T] (a : Optional T) (lb : T) : Optional T :=
  shrink_if a lb (fun x lb => decide (lb < x))

/-- The StrictShrinkRight impl: shrink_if with the test x < ub. -/
def Optional.strict_shrink_right {T : Type} [LinearOrder T] (a : Optional T) (ub : T) : Optional T :=
  shrink_if a ub (fun x ub => decide (x < ub))

/-! Basic case lemmas shared by the theorems below. -/

theorem Optional.is_empty_empty {T : Type} : (Optional.empty : Optional T).is_empty = true :=
  rfl

theorem Optional.is_empty_singleton {T : Type} (x : T) : (Optional.singleton x).is_empty = false :=
  rfl

theorem Optional.eq_empty_or_singleton {T : Type} (a : Optional T) :
    a = Optional.empty ∨ ∃ x : T, a = Optional.singleton x := by
  rcases a with ⟨_ | x⟩
  · exact Or.inl rfl
  · exact Or.inr ⟨x, rfl⟩

theorem Optional.singleton_inj {T : Type} [DecidableEq T] (x y : T) :
    (Optional.singleton x = Optional.singleton y) ↔ x = y := by
  constructor
  · intro h
    exact Option.some.inj (congrArg Optional.value h)
  · intro h
    rw [h]

/-- Claim C1: for all Optional values a and b, intersection(a, b) is
empty when a is empty, when b is empty, or when a and b are unequal as
whole values, and is a clone of a when both are non-empty and equal.
Every Optional is empty or a singleton, so the three conjuncts cover all
pairs. -/
theorem C1_intersection_spec {T : Type} [DecidableEq T] :
    (∀ b : Optional T, Optional.intersection Optional.empty b = Optional.empty) ∧
    (∀ a : Optional T, Optional.intersection a Optional.empty = Optional.empty) ∧
    (∀ x y : T, Optional.intersection (Optional.singleton x) (Optional.singleton y) =
      if x = y then Optional.singleton x else Optional.empty) := by
  refine ⟨?_, ?_, ?_⟩
  · intro b
    simp [Optional.intersection, Optional.is_empty_empty]
  · intro a
    simp [Optional.intersection, Optional.is_empty_empty]
  · intro x y
    by_cases h : x = y
    · subst h
      simp [Optional.intersection, Optional.is_empty_singleton]
    · have hne : Optional.singleton x ≠ Optional.singleton y := by
        simpa [Optional.singleton_inj] using h
      simp [Optional.intersection, Optional.is_empty_singleton, h, hne]

/-- Claim C2: for all Optional values a and b, difference(a, b) is
empty when a is empty or a equals b, and otherwise is a clone of a; in
particular removing a non-matching singleton from a singleton leaves it
unchanged. -/
theorem C2_difference_spec {T : Type} [DecidableEq T] :
    (∀ b : Optional T, Optional.difference Optional.empty b = Optional.empty) ∧
    (∀ x : T, Optional.difference (Optional.singleton x) Optional.empty = Optional.singleton x) ∧
    (∀ x y : T, Optional.difference (Optional.singleton x) (Optional.singleton y) =
      if x = y then Optional.empty else Optional.singleton x) := by
  refine ⟨?_, ?_, ?_⟩
  · intro b
    simp [Optional.difference, Optional.is_empty_empty]
  · intro x
    have hne : Optional.singleton x ≠ (Optional.empty : Optional T) := by
      intro h
      exact Option.noConfusion (congrArg Optional.value h)
    simp [Optional.difference, Optional.is_empty_singleton, hne]
  · intro x y
    by_cases h : x = y
    · subst h
      simp [Optional.difference, Optional.is_empty_singleton]
    · have hne : Optional.singleton x ≠ Optional.singleton y := by
        simpa [Optional.singleton_inj] using h
      simp [Optional.difference, Optional.is_empty_singleton, h, hne]

/-- Claim C3: when the delegate disjointness test of T is the logical
negation of its overlap test (the trait contract the spec states for T),
is_disjoint on two non-empty Optionals is the negation of overlap, and
whenever at least one operand is empty, is_disjoint is true and overlap
is false. -/
theorem C3_disjoint_overlap_duality {T : Type} (d ov : T → T → Bool)
    (hdual : ∀ x y : T, d x y = !(ov x y)) :
    (∀ a b : Optional T, a.is_empty = false → b.is_empty = false →
      Optional.is_disjoint d a b = !(Optional.overlap ov a b)) ∧
    (∀ a b : Optional T, a.is_empty = true ∨ b.is_empty = true →
      Optional.is_disjoint d a b = true ∧ Optional.overlap ov a b = false) := by
  constructor
  · intro a b ha hb
    rcases a.eq_empty_or_singleton with rfl | ⟨x, rfl⟩
    · exact absurd ha (by simp [Optional.is_empty_empty])
    rcases b.eq_empty_or_singleton with rfl | ⟨y, rfl⟩
    · exact absurd hb (by simp [Optional.is_empty_empty])
    simp [Optional.is_disjoint, Optional.overlap, Optional.is_empty_singleton,
      Optional.singleton, Optional.wrap, hdual]
  · intro a b h
    rcases h with h | h
    · rcases a.eq_empty_or_singleton with rfl | ⟨x, rfl⟩
      · constructor
        · simp [Optional.is_disjoint, Optional.is_empty_empty]
        · simp [Optional.overlap, Optional.is_empty_empty]
      · exact absurd h (by simp [Optional.is_empty_singleton])
    · rcases b.eq_empty_or_singleton with rfl | ⟨y, rfl⟩
      · constructor
        · simp [Optional.is_disjoint, Optional.is_empty_empty]
        · simp [Optional.overlap, Optional.is_empty_empty]
      · exact absurd h (by simp [Optional.is_empty_singleton])

/-- Witness for C3 at concrete inputs: with the dual delegates on Nat,
the duality holds at the pair of singletons 2 and 3. -/
theorem C3_disjoint_overlap_duality_witness :
    Optional.is_disjoint (fun x y : Nat => decide (x ≠ y))
        (Optional.singleton 2) (Optional.singleton 3)
      = !(Optional.overlap (fun x y : Nat => decide (x = y))
        (Optional.singleton 2) (Optional.singleton 3)) :=
  (C3_disjoint_overlap_duality (fun x y : Nat => decide (x ≠ y))
      (fun x y : Nat => decide (x = y))
      (fun x y => by by_cases h : x = y <;> simp [h])).1
    (Optional.singleton 2) (Optional.singleton 3) rfl rfl

/-- Claim C4: lower and upper on an empty Optional fail (the debug
assertion fires, modelled as the result none, never a value), while on
a singleton each returns the contained value's own bound through the
delegate. -/
theorem C4_bounds_spec {T B : Type} (tl tu : T → B) :
    (Optional.lower tl (Optional.empty : Optional T) = none) ∧
    (Optional.upper tu (Optional.empty : Optional T) = none) ∧
    (∀ x : T, Optional.lower tl (Optional.singleton x) = some (tl x)) ∧
    (∀ x : T, Optional.upper tu (Optional.singleton x) = some (tu x)) := by
  refine ⟨rfl, rfl, ?_, ?_⟩
  · intro x
    simp [Optional.lower, Optional.is_empty, Optional.size, Optional.singleton, Optional.wrap]
  · intro x
    simp [Optional.upper, Optional.is_empty, Optional.size, Optional.singleton, Optional.wrap]

/-- Claim C10: with the debug assertion elided (release build), lower
and upper still fail on an empty Optional because the unwrap of the
empty slot fails (result none, never a value), and on every input the
release build computes exactly what the debug build computes, so no
build configuration silently produces a sentinel result. -/
theorem C10_release_still_panics {T B : Type} (tl tu : T → B) :
    (Optional.lower_release tl (Optional.empty : Optional T) = none) ∧
    (Optional.upper_release tu (Optional.empty : Optional T) = none) ∧
    (∀ a : Optional T, Optional.lower_release tl a = Optional.lower tl a) ∧
    (∀ a : Optional T, Optional.upper_release tu a = Optional.upper tu a) := by
  refine ⟨rfl, rfl, ?_, ?_⟩
  · intro a
    rcases a.eq_empty_or_singleton with rfl | ⟨x, rfl⟩ <;>
      simp [Optional.lower_release, Optional.lower, Optional.is_empty, Optional.size,
        Optional.empty, Optional.singleton, Optional.wrap]
  · intro a
    rcases a.eq_empty_or_singleton with rfl | ⟨x, rfl⟩ <;>
      simp [Optional.upper_release, Optional.upper, Optional.is_empty, Optional.size,
        Optional.empty, Optional.singleton, Optional.wrap]

/-- Claim C5: each shrink operation maps an empty set to the empty set,
and on a singleton keeps it iff its value satisfies the bound test:
value >= k for shrink_left, value <= k for shrink_right, value > k for
strict_shrink_left, value < k for strict_shrink_right. -/
theorem C5_shrink_spec {T : Type} [LinearOrder T] :
    (∀ k : T,
      (Optional.empty : Optional T).shrink_left k = Optional.empty ∧
      (Optional.empty : Optional T).shrink_right k = Optional.empty ∧
      (Optional.empty : Optional T).strict_shrink_left k = Optional.empty ∧
      (Optional.empty : Optional T).strict_shrink_right k = Optional.empty) ∧
    (∀ x k : T, (Optional.singleton x).shrink_left k =
      if k ≤ x then Optional.singleton x else Optional.empty) ∧
    (∀ x k : T, (Optional.singleton x).shrink_right k =
      if x ≤ k then Optional.singleton x else Optional.empty) ∧
    (∀ x k : T, (Optional.singleton x).strict_shrink_left k =
      if k < x then Optional.singleton x else Optional.empty) ∧
    (∀ x k : T, (Optional.singleton x).strict_shrink_right k =
      if x < k then Optional.singleton x else Optional.empty) := by
  refine ⟨fun k => ⟨rfl, rfl, rfl, rfl⟩, ?_, ?_, ?_, ?_⟩
  · intro x k
    by_cases h : k ≤ x <;>
      simp [Optional.shrink_left, shrink_if, Optional.singleton, Optional.wrap, h]
  · intro x k
    by_cases h : x ≤ k <;>
      simp [Optional.shrink_right, shrink_if, Optional.singleton, Optional.wrap, h]
  · intro x k
    by_cases h : k < x <;>
      simp [Optional.strict_shrink_left, shrink_if, Optional.singleton, Optional.wrap, h]
  · intro x k
    by_cases h : x < k <;>
      simp [Optional.strict_shrink_right, shrink_if, Optional.singleton, Optional.wrap, h]

/-- Claim C6: is_subset with delegate s is true when the left operand is
empty, false when the left is non-empty and the right is empty, and
equal to the delegate subset test of the contained values when both are
non-empty.  Every Optional is empty or a singleton, so the conjuncts
cover all pairs. -/
theorem C6_subset_spec {T U : Type} (s : T → U → Bool) :
    (∀ b : Optional U, Optional.is_subset s Optional.empty b = true) ∧
    (∀ x : T, Optional.is_subset s (Optional.singleton x) (Optional.empty : Optional U) = false) ∧
    (∀ (x : T) (y : U),
      Optional.is_subset s (Optional.singleton x) (Optional.singleton y) = s x y) := by
  refine ⟨?_, ?_, ?_⟩
  · intro b
    simp [Optional.is_subset, Optional.is_empty_empty]
  · intro x
    simp [Optional.is_subset, Optional.is_empty, Optional.size,
      Optional.singleton, Optional.wrap, Optional.empty]
  · intro x y
    simp [Optional.is_subset, Optional.is_empty, Optional.size,
      Optional.singleton, Optional.wrap]

/-- Claim C7: is_proper_subset with delegate s holds iff is_subset holds
and the two Optionals are unequal as whole sets; no delegated
proper-subset test of T enters the definition. -/
theorem C7_proper_subset_spec {T : Type} [DecidableEq T] (s : T → T → Bool) (a b : Optional T) :
    Optional.is_proper_subset s a b = true ↔
      (Optional.is_subset s a b = true ∧ a ≠ b) := by
  simp [Optional.is_proper_subset, bne_iff_ne]

/-- Claim C8: intersection is commutative. -/
theorem C8_intersection_comm {T : Type} [DecidableEq T] (a b : Optional T) :
    Optional.intersection a b = Optional.intersection b a := by
  by_cases h : a = b
  · rw [h]
  · have h' : b ≠ a := fun hba => h hba.symm
    simp [Optional.intersection, bne_iff_ne, h, h']

/-- Claim C9: intersection is idempotent on every non-empty Optional
(every non-empty Optional is a singleton), and difference of any
Optional with itself is empty. -/
theorem C9_idempotence {T : Type} [DecidableEq T] :
    (∀ x : T, Optional.intersection (Optional.singleton x) (Optional.singleton x) =
      Optional.singleton x) ∧
    (∀ a : Optional T, Optional.difference a a = Optional.empty) := by
  constructor
  · intro x
    simp [Optional.intersection, Optional.is_empty, Optional.size,
      Optional.singleton, Optional.wrap]
  · intro a
    simp [Optional.difference]
